import Mathlib

/-!
Verification development for the gonka-proxy repository: a request-signing
reverse proxy. The embedding below models, from the source:

* `app/gonka_client.py` — `GonkaClient.__init__`, `_hybrid_timestamp_ns`,
  `_sign_payload` (deterministic ECDSA over secp256k1 with SHA-256, RFC 6979
  nonces, low-S normalization, base64 output), `_prepare_request`,
  `get_models`, `request_stream`;
* `app/main.py` — `Settings`, `_create_gonka_client`, `get_gonka_client`,
  and the `chat_completions` handler body (the part after the bearer-auth
  dependency has been resolved).

Bytes are modelled as `List Nat` (each element a byte value `< 256`),
machine integers as `Nat`/`Int` with explicit `% 2^32` where the source
computes on 32-bit words, Python exceptions as `Except`, and loops whose
bound is not structural as fueled recursion (the fuel is always far beyond
what any reachable input consumes).
-/

namespace GonkaProxy

/-! ## Byte-string utilities -/

/-- Big-endian interpretation of a byte string as a natural number; models
Python's `int.from_bytes(b, 'big')` and python-ecdsa's `string_to_number`. -/
def beToNat (bs : List Nat) : Nat :=
  bs.foldl (fun acc b => acc * 256 + b) 0

/-- Big-endian encoding of a natural number into exactly `w` bytes; models
Python's `x.to_bytes(w, 'big')` and python-ecdsa's `number_to_string`
(which always emits the full byte length of the curve order). -/
def natToBeBytes : Nat → Nat → List Nat
  | 0, _ => []
  | w + 1, x => natToBeBytes w (x / 256) ++ [x % 256]

/-! ## UTF-8 encoding (Python's `str.encode('utf-8')`) -/

/-- UTF-8 encoding of one Unicode scalar value, as a list of byte values. -/
def utf8EncodeCharBytes (c : Char) : List Nat :=
  let v := c.toNat
  if v < 128 then [v]
  else if v < 2048 then [192 + v / 64, 128 + v % 64]
  else if v < 65536 then [224 + v / 4096, 128 + v / 64 % 64, 128 + v % 64]
  else [240 + v / 262144, 128 + v / 4096 % 64, 128 + v / 64 % 64, 128 + v % 64]

/-- UTF-8 bytes of a string; models Python's `s.encode('utf-8')`. -/
def strBytes (s : String) : List Nat :=
  (s.data.map utf8EncodeCharBytes).flatten

/-! ## Decimal rendering (Python's `str(int)`) -/

/-- Decimal digit characters in order. -/
def decDigitChar (d : Nat) : Char :=
  "0123456789".data.getD d '0'

/-- Big-endian decimal digits of `x`, most significant first; empty for 0.
Fueled recursion on `x / 10`; any fuel at least the digit count suffices. -/
def decDigitsAux : Nat → Nat → List Char
  | 0, _ => []
  | fuel + 1, x => if x = 0 then [] else decDigitsAux fuel (x / 10) ++ [decDigitChar (x % 10)]

/-- Decimal rendering of a natural number, exactly as Python's `str`:
minimal digits, no sign, no leading zeros, and `"0"` for zero. -/
def decimalString (x : Nat) : String :=
  if x = 0 then "0" else String.mk (decDigitsAux (x + 1) x)

/-- Decimal rendering of an integer, exactly as Python's `str`: a leading
`-` for negative values, otherwise the unsigned rendering. -/
def intDecimalString (t : Int) : String :=
  match t with
  | Int.ofNat m => decimalString m
  | Int.negSucc m => String.mk ('-' :: (decimalString (m + 1)).data)

/-- Valuation of a digit-character list (verification helper: the inverse
of the decimal rendering, used to prove the rendering injective). -/
def decValue (l : List Char) : Nat :=
  l.foldl (fun acc c => acc * 10 + (c.toNat - 48)) 0

/-! ## Hex parsing (Python's `bytes.fromhex`) -/

/-- Value of one hexadecimal digit character, upper or lower case. -/
def hexDigitVal (c : Char) : Option Nat :=
  if '0' ≤ c ∧ c ≤ '9' then some (c.toNat - 48)
  else if 'a' ≤ c ∧ c ≤ 'f' then some (c.toNat - 87)
  else if 'A' ≤ c ∧ c ≤ 'F' then some (c.toNat - 55)
  else none

/-- Pair up an even-length list of hex digit characters into byte values. -/
def hexPairsToBytes : List Char → Option (List Nat)
  | [] => some []
  | [_] => none
  | c1 :: c2 :: rest =>
    match hexDigitVal c1, hexDigitVal c2, hexPairsToBytes rest with
    | some h1, some h2, some bs => some ((h1 * 16 + h2) :: bs)
    | _, _, _ => none

/-- Python's `bytes.fromhex`: ASCII spaces are ignored, the remaining
characters must be an even number of hex digits. `none` models the
`ValueError` it raises otherwise. -/
def bytesFromHex (s : String) : Option (List Nat) :=
  hexPairsToBytes (s.data.filter (fun c => c ≠ ' '))

/-! ## Base64 (Python's `base64.b64encode` / `b64decode`) -/

/-- The standard base64 alphabet. -/
def b64Chars : List Char :=
  "ABCDEFGHIJKLMNOPQRSTUVWXYZabcdefghijklmnopqrstuvwxyz0123456789+/".data

/-- Character for a 6-bit group. -/
def sextetChar (i : Nat) : Char :=
  b64Chars.getD i 'A'

/-- Index of a base64 character in the alphabet, `none` for anything else. -/
def sextetOf (c : Char) : Option Nat :=
  let i := b64Chars.indexOf c
  if i < 64 then some i else none

/-- Base64-encode a byte string, three bytes at a time, with `=` padding;
the characters of Python's `base64.b64encode`. -/
def b64encodeChars : List Nat → List Char
  | b0 :: b1 :: b2 :: rest =>
    let v := b0 * 65536 + b1 * 256 + b2
    sextetChar (v / 262144) :: sextetChar (v / 4096 % 64) ::
      sextetChar (v / 64 % 64) :: sextetChar (v % 64) :: b64encodeChars rest
  | [b0, b1] =>
    let v := b0 * 65536 + b1 * 256
    [sextetChar (v / 262144), sextetChar (v / 4096 % 64), sextetChar (v / 64 % 64), '=']
  | [b0] =>
    let v := b0 * 65536
    [sextetChar (v / 262144), sextetChar (v / 4096 % 64), '=', '=']
  | [] => []

/-- Base64 encoding as a string: Python's
`base64.b64encode(b).decode('utf-8')`. -/
def b64encodeStr (bs : List Nat) : String :=
  String.mk (b64encodeChars bs)

/-- Base64-decode a character list, four characters at a time, honouring
`=` padding; `none` on malformed input. -/
def b64decodeChars : List Char → Option (List Nat)
  | [] => some []
  | c0 :: c1 :: c2 :: c3 :: rest =>
    match sextetOf c0, sextetOf c1 with
    | some s0, some s1 =>
      if c2 = '=' then
        if c3 = '=' ∧ rest = [] then some [s0 * 4 + s1 / 16] else none
      else
        match sextetOf c2 with
        | some s2 =>
          if c3 = '=' then
            if rest = [] then some [s0 * 4 + s1 / 16, s1 % 16 * 16 + s2 / 4] else none
          else
            match sextetOf c3, b64decodeChars rest with
            | some s3, some bs =>
              some ((s0 * 4 + s1 / 16) :: (s1 % 16 * 16 + s2 / 4) :: (s2 % 4 * 64 + s3) :: bs)
            | _, _ => none
        | none => none
    | _, _ => none
  | _ => none

/-- Base64 decoding of a string to a byte string. -/
def b64decode (s : String) : Option (List Nat) :=
  b64decodeChars s.data

/-! ## SHA-256 (Python's `hashlib.sha256`)

All words are `Nat` values kept below `2 ^ 32`; every arithmetic operation
reduces modulo `2 ^ 32` explicitly. -/

/-- The SHA-256 round constants. -/
def sha256K : List Nat :=
  [1116352408, 1899447441, 3049323471, 3921009573, 961987163, 1508970993,
   2453635748, 2870763221, 3624381080, 310598401, 607225278, 1426881987,
   1925078388, 2162078206, 2614888103, 3248222580, 3835390401, 4022224774,
   264347078, 604807628, 770255983, 1249150122, 1555081692, 1996064986,
   2554220882, 2821834349, 2952996808, 3210313671, 3336571891, 3584528711,
   113926993, 338241895, 666307205, 773529912, 1294757372, 1396182291,
   1695183700, 1986661051, 2177026350, 2456956037, 2730485921, 2820302411,
   3259730800, 3345764771, 3516065817, 3600352804, 4094571909, 275423344,
   430227734, 506948616, 659060556, 883997877, 958139571, 1322822218,
   1537002063, 1747873779, 1955562222, 2024104815, 2227730452, 2361852424,
   2428436474, 2756734187, 3204031479, 3329325298]

/-- The SHA-256 initial hash value. -/
def sha256H0 : List Nat :=
  [1779033703, 3144134277, 1013904242, 2773480762, 1359893119, 2600822924,
   528734635, 1541459225]

/-- Right rotation of a 32-bit word. -/
def rotr32 (x r : Nat) : Nat :=
  (x >>> r ||| x <<< (32 - r)) % 4294967296

/-- SHA-256 padding: a `0x80` byte, zeros to 56 mod 64, and the bit length
as an 8-byte big-endian integer. -/
def sha256Pad (msg : List Nat) : List Nat :=
  msg ++ 128 :: List.replicate ((119 - msg.length % 64) % 64) 0
      ++ natToBeBytes 8 (msg.length * 8)

/-- Group a byte list into big-endian 32-bit words, four bytes per word.
Fueled on the list length. -/
def bytesToWords : Nat → List Nat → List Nat
  | 0, _ => []
  | _, [] => []
  | fuel + 1, l => beToNat (l.take 4) :: bytesToWords fuel (l.drop 4)

/-- Split a list into 64-element chunks. Fueled on the list length. -/
def chunks64 : Nat → List Nat → List (List Nat)
  | 0, _ => []
  | _, [] => []
  | fuel + 1, l => l.take 64 :: chunks64 fuel (l.drop 64)

/-- Extend the 16 schedule words of one block to 64. -/
def sha256Extend : Nat → List Nat → List Nat
  | 0, w => w
  | fuel + 1, w =>
    let t := w.length
    let w15 := w.getD (t - 15) 0
    let w2 := w.getD (t - 2) 0
    let s0 := rotr32 w15 7 ^^^ rotr32 w15 18 ^^^ (w15 >>> 3)
    let s1 := rotr32 w2 17 ^^^ rotr32 w2 19 ^^^ (w2 >>> 10)
    sha256Extend fuel (w ++ [(w.getD (t - 16) 0 + s0 + w.getD (t - 7) 0 + s1) % 4294967296])

/-- One SHA-256 compression round: state is the eight working variables. -/
def sha256Round (st : List Nat) (kw : Nat × Nat) : List Nat :=
  match st with
  | [a, b, c, d, e, f, g, h] =>
    let S1 := rotr32 e 6 ^^^ rotr32 e 11 ^^^ rotr32 e 25
    let ch := e &&& f ^^^ ((4294967295 - e) &&& g)
    let temp1 := (h + S1 + ch + kw.1 + kw.2) % 4294967296
    let S0 := rotr32 a 2 ^^^ rotr32 a 13 ^^^ rotr32 a 22
    let maj := a &&& b ^^^ (a &&& c) ^^^ (b &&& c)
    let temp2 := (S0 + maj) % 4294967296
    [(temp1 + temp2) % 4294967296, a, b, c, (d + temp1) % 4294967296, e, f, g]
  | st => st

/-- Process one 64-byte block, updating the eight-word hash state. -/
def sha256Block (h : List Nat) (block : List Nat) : List Nat :=
  let w := sha256Extend 48 (bytesToWords 64 block)
  let st := (sha256K.zip w).foldl sha256Round h
  (h.zip st).map (fun p => (p.1 + p.2) % 4294967296)

/-- SHA-256 digest of a byte string, as a 32-byte big-endian list; models
`hashlib.sha256(msg).digest()`. -/
def sha256 (msg : List Nat) : List Nat :=
  let padded := sha256Pad msg
  let hs := (chunks64 (padded.length + 1) padded).foldl sha256Block sha256H0
  (hs.map (natToBeBytes 4)).flatten

/-! ## HMAC-SHA256 (Python's `hmac.new(key, msg, hashlib.sha256)`) -/

/-- HMAC-SHA256 of `msg` under `key`, as a 32-byte digest. -/
def hmacSha256 (key msg : List Nat) : List Nat :=
  let k1 := if key.length > 64 then sha256 key else key
  let k0 := k1 ++ List.replicate (64 - k1.length) 0
  let ipadKey := k0.map (fun b => b ^^^ 54)
  let opadKey := k0.map (fun b => b ^^^ 92)
  sha256 (opadKey ++ sha256 (ipadKey ++ msg))

/-! ## secp256k1 (python-ecdsa's `SECP256k1` curve)

The curve is `y ^ 2 = x ^ 3 + 7` over the prime field `F_p`. Points are
`Option (Nat × Nat)`: `none` is the point at infinity. Modular inverses are
computed by Fermat exponentiation (`x ^ (m - 2) mod m`), which agrees with
python-ecdsa's extended-Euclid `inverse_mod` on every unit. -/

namespace SECP256k1

/-- The field prime of secp256k1. -/
def p : Nat :=
  0xFFFFFFFFFFFFFFFFFFFFFFFFFFFFFFFFFFFFFFFFFFFFFFFFFFFFFFFEFFFFFC2F

/-- The group order of the secp256k1 generator (python-ecdsa's
`SECP256k1.order`). -/
def order : Nat :=
  0xFFFFFFFFFFFFFFFFFFFFFFFFFFFFFFFEBAAEDCE6AF48A03BBFD25E8CD0364141

/-- x-coordinate of the generator. -/
def Gx : Nat :=
  0x79BE667EF9DCBBAC55A06295CE870B07029BFCDB2DCE28D959F2815B16F81798

/-- y-coordinate of the generator. -/
def Gy : Nat :=
  0x483ADA7726A3C4655DA4FBFC0E1108A8FD17B448A68554199C47D08FFB10D4B8

/-- The generator point. -/
def generator : Option (Nat × Nat) := some (Gx, Gy)

end SECP256k1

/-- Number of bits, fueled on the bit count (300 covers every value used
here, all below `2 ^ 260`). -/
def bitLengthAux : Nat → Nat → Nat
  | 0, _ => 0
  | fuel + 1, x => if x = 0 then 0 else bitLengthAux fuel (x / 2) + 1

/-- Number of bits of a natural number, Python's `int.bit_length()`. -/
def bitLength (x : Nat) : Nat :=
  bitLengthAux 300 x

/-- Modular exponentiation by binary square-and-multiply; the fuel bounds
the bit length of the exponent (300 covers every exponent used here). -/
def powModAux (m : Nat) : Nat → Nat → Nat → Nat
  | 0, _, _ => 1 % m
  | fuel + 1, b, e =>
    if e = 0 then 1 % m
    else
      let h := powModAux m fuel (b * b % m) (e / 2)
      if e % 2 = 1 then h * b % m else h

/-- `b ^ e mod m`. -/
def powMod (b e m : Nat) : Nat :=
  powModAux m 300 (b % m) e

/-- Inverse modulo the field prime. -/
def invModP (x : Nat) : Nat :=
  powMod x (SECP256k1.p - 2) SECP256k1.p

/-- Subtraction modulo the field prime (always well-defined on `Nat`). -/
def subModP (a b : Nat) : Nat :=
  (a % SECP256k1.p + (SECP256k1.p - b % SECP256k1.p)) % SECP256k1.p

/-- Point doubling on secp256k1 in Jacobian coordinates (curve coefficient
`a = 0`), the group law python-ecdsa's `PointJacobi._double` computes; the
point at infinity is any triple with `Z ≡ 0`. -/
def jacDouble (P : Nat × Nat × Nat) : Nat × Nat × Nat :=
  let p := SECP256k1.p
  let X1 := P.1
  let Y1 := P.2.1
  let Z1 := P.2.2
  if Y1 % p = 0 ∨ Z1 % p = 0 then (0, 1, 0)
  else
    let A := X1 * X1 % p
    let B := Y1 * Y1 % p
    let C := B * B % p
    let D := 2 * subModP (subModP ((X1 + B) * (X1 + B) % p) A) C % p
    let E := 3 * A % p
    let F := E * E % p
    let X3 := subModP F (2 * D % p)
    let Y3 := subModP (E * subModP D X3 % p) (8 * C % p)
    let Z3 := 2 * Y1 * Z1 % p
    (X3, Y3, Z3)

/-- Point addition on secp256k1 in Jacobian coordinates, the group law
python-ecdsa's `PointJacobi._add` computes. -/
def jacAdd (P Q : Nat × Nat × Nat) : Nat × Nat × Nat :=
  let p := SECP256k1.p
  let X1 := P.1
  let Y1 := P.2.1
  let Z1 := P.2.2
  let X2 := Q.1
  let Y2 := Q.2.1
  let Z2 := Q.2.2
  if Z1 % p = 0 then Q
  else if Z2 % p = 0 then P
  else
    let Z1Z1 := Z1 * Z1 % p
    let Z2Z2 := Z2 * Z2 % p
    let U1 := X1 * Z2Z2 % p
    let U2 := X2 * Z1Z1 % p
    let S1 := Y1 * Z2 % p * Z2Z2 % p
    let S2 := Y2 * Z1 % p * Z1Z1 % p
    if U1 = U2 then
      if S1 = S2 then jacDouble P else (0, 1, 0)
    else
      let H := subModP U2 U1
      let I := 2 * H % p * (2 * H % p) % p
      let J := H * I % p
      let rr := 2 * subModP S2 S1 % p
      let V := U1 * I % p
      let X3 := subModP (subModP (rr * rr % p) J) (2 * V % p)
      let Y3 := subModP (rr * subModP V X3 % p) (2 * S1 % p * J % p)
      let Z3 := 2 * Z1 * Z2 % p * H % p
      (X3, Y3, Z3)

/-- Conversion from Jacobian back to affine coordinates, with the one
field inversion python-ecdsa performs when reading the point's
x-coordinate; `none` is the point at infinity. -/
def jacToAffine (P : Nat × Nat × Nat) : Option (Nat × Nat) :=
  let p := SECP256k1.p
  if P.2.2 % p = 0 then none
  else
    let zi := invModP (P.2.2 % p)
    let zi2 := zi * zi % p
    some (P.1 * zi2 % p, P.2.1 * zi2 % p * zi % p)

/-- The bits of a natural number, least significant first; fueled on the
bit length (300 covers every scalar used here). -/
def natToBits : Nat → Nat → List Bool
  | 0, _ => []
  | fuel + 1, x => if x = 0 then [] else decide (x % 2 = 1) :: natToBits fuel (x / 2)

/-- The double-and-add ladder over Jacobian coordinates, most significant
bit first (the bit list is least-significant-first, so the fold runs from
the right). -/
def jacLadder (base : Nat × Nat) (bits : List Bool) (acc : Nat × Nat × Nat) :
    Nat × Nat × Nat :=
  bits.foldr
    (fun bit acc =>
      let d := jacDouble acc
      if bit then jacAdd d (base.1, base.2, 1) else d)
    acc

/-- Scalar multiplication `k * pt` by double-and-add, exactly the strategy
of python-ecdsa's `PointJacobi.__mul__` (projective throughout, one
inversion at the end). -/
def scalarMult (k : Nat) (pt : Option (Nat × Nat)) : Option (Nat × Nat) :=
  match pt with
  | none => none
  | some xy => jacToAffine (jacLadder xy (natToBits 300 k) (0, 1, 0))

/-! ## RFC 6979 deterministic nonces (python-ecdsa's `rfc6979.generate_k`) -/

/-- RFC 6979 `bits2int`: the leftmost `qlen` bits of a byte string as an
integer. -/
def bits2int (data : List Nat) (qlen : Nat) : Nat :=
  let x := beToNat data
  let l := data.length * 8
  if qlen < l then x >>> (l - qlen) else x

/-- RFC 6979 `bits2octets` for a group order `q`. -/
def bits2octets (data : List Nat) (q : Nat) : List Nat :=
  let z1 := bits2int data (bitLength q)
  let z2 := if q ≤ z1 then z1 - q else z1
  natToBeBytes ((bitLength q + 7) / 8) z2

/-- Inner loop of RFC 6979 step H2: stretch `V` until at least `rolen`
bytes of candidate material are available. Returns the material and the
final `V`. -/
def buildT (k : List Nat) (rolen : Nat) : Nat → List Nat → List Nat → List Nat × List Nat
  | 0, v, t => (t, v)
  | fuel + 1, v, t =>
    if t.length < rolen then
      let v2 := hmacSha256 k v
      buildT k rolen fuel v2 (t ++ v2)
    else (t, v)

/-- Candidate loop of RFC 6979 (step H): successive candidates are drawn
from the HMAC-DRBG until one lies in `[1, q)`; the first `retryGen` valid
candidates are skipped (python-ecdsa's `retry_gen`). Fueled; `none` never
occurs for the fuel used below on any reachable input. -/
def generateKLoop (q qlen rolen : Nat) : Nat → Nat → List Nat → List Nat → Option Nat
  | 0, _, _, _ => none
  | fuel + 1, retryGen, k, v =>
    let tv := buildT k rolen (rolen + 1) v []
    let secret := bits2int tv.1 qlen
    let k2 := hmacSha256 k (tv.2 ++ [0])
    let v2 := hmacSha256 k2 tv.2
    if 1 ≤ secret ∧ secret < q then
      if retryGen = 0 then some secret
      else generateKLoop q qlen rolen fuel (retryGen - 1) k2 v2
    else generateKLoop q qlen rolen fuel retryGen k2 v2

/-- RFC 6979 nonce derivation for group order `q`, secret exponent `d` and
message digest `digest` (python-ecdsa's `rfc6979.generate_k` with empty
`extra_entropy`). -/
def generateK (q d : Nat) (digest : List Nat) (retryGen : Nat) : Option Nat :=
  let qlen := bitLength q
  let rolen := (qlen + 7) / 8
  let bx := natToBeBytes rolen d ++ bits2octets digest q
  let v0 := List.replicate 32 1
  let k0 := List.replicate 32 0
  let k1 := hmacSha256 k0 (v0 ++ [0] ++ bx)
  let v1 := hmacSha256 k1 v0
  let k2 := hmacSha256 k1 (v1 ++ [1] ++ bx)
  let v2 := hmacSha256 k2 v1
  generateKLoop q qlen rolen 1000 retryGen k2 v2

/-! ## ECDSA signing (python-ecdsa's `Private_key.sign` and
`SigningKey.sign_deterministic`) -/

/-- First half of python-ecdsa's `Private_key.sign` with nonce `k`: the
point `p1`. The scalar passed to the point multiplication is `k + q` or
`k + 2 q` exactly as in the source (a blinding step that does not change
the resulting point, since `q * G` is the identity). -/
def noncePoint (k : Nat) : Option (Nat × Nat) :=
  let q := SECP256k1.order
  let kq := k % q
  let ks := kq + q
  let kt := ks + q
  let kUse := if bitLength ks = bitLength q then kt else ks
  scalarMult kUse SECP256k1.generator

/-- Second half of python-ecdsa's `Private_key.sign`, from the
x-coordinate of the nonce point: `r = p1.x % n` and
`s = inverse_mod(k, n) * (hash + (d * r) % n) % n`; `none` models the
`RSZeroError` retry cases `r = 0` and `s = 0`. -/
def signRS (d z k x : Nat) : Option (Nat × Nat) :=
  let q := SECP256k1.order
  let r := x % q
  if r = 0 then none
  else
    let s := powMod (k % q) (q - 2) q * (z + d * r % q) % q
    if s = 0 then none else some (r, s)

/-- One ECDSA signing attempt with nonce `k` over the truncated digest `z`
and secret exponent `d` (python-ecdsa's `Private_key.sign`): the point
multiplication followed by the `(r, s)` computation on the point's
x-coordinate (an infinite point, unreachable for a nonce in `[1, q)`,
yields `none`). -/
def signAttempt (d z k : Nat) : Option (Nat × Nat) :=
  (noncePoint k).elim none (fun xy => signRS d z k xy.1)

/-- Retry loop of `sign_digest_deterministic`: on an `RSZeroError` the
nonce is regenerated with an incremented `retry_gen`; a failing nonce
generation (unreachable) aborts with `none`. -/
def signDetLoop (d z : Nat) (digest : List Nat) : Nat → Nat → Option (Nat × Nat)
  | 0, _ => none
  | fuel + 1, retryGen =>
    (generateK SECP256k1.order d digest retryGen).elim none
      (fun k => (signAttempt d z k).elim (signDetLoop d z digest fuel (retryGen + 1)) some)

/-- Deterministic ECDSA over SHA-256 of `data` with secret exponent `d`:
python-ecdsa's `SigningKey.sign_deterministic(data, hashfunc=sha256)`
up to its `sigencode` step, yielding the signature pair `(r, s)`. The
digest is truncated to the order's bit length before use
(`allow_truncate=True`; for SHA-256 and secp256k1 both are 256 bits). -/
def signDeterministic (d : Nat) (data : List Nat) : Option (Nat × Nat) :=
  let digest := sha256 data
  let digestBits := digest.length * 8
  let orderBits := bitLength SECP256k1.order
  let z :=
    if orderBits < digestBits then beToNat digest >>> (digestBits - orderBits)
    else beToNat digest
  signDetLoop d z digest 64 0

/-! ## GonkaClient (`app/gonka_client.py`) -/

/-- Failure modes of `_sign_payload`, the exceptions Python raises while
handling the key and signing: `ValueError` from `bytes.fromhex` on non-hex
input, `MalformedPointError` from `SigningKey.from_string` on a key of the
wrong length or out of the range `[1, order)`, and the (unreachable)
exhaustion of the deterministic-nonce retry loop. -/
inductive SignError where
  | invalidHexKey
  | invalidKeyLength
  | invalidKeyRange
  | nonceFailure
deriving DecidableEq, Repr

/-- Key handling of `_sign_payload` (lines 49–51): strip an optional `0x`
prefix, `bytes.fromhex`, then `SigningKey.from_string(..., SECP256k1)`,
which demands exactly 32 bytes decoding to an exponent in `[1, order)`. -/
def parsedKey (privateKey : String) : Except SignError Nat :=
  let pk : List Char :=
    match privateKey.data with
    | '0' :: 'x' :: rest => rest
    | l => l
  match hexPairsToBytes (pk.filter (fun c => c ≠ ' ')) with
  | none => Except.error SignError.invalidHexKey
  | some keyBytes =>
    if keyBytes.length = 32 then
      let secexp := beToNat keyBytes
      if 1 ≤ secexp ∧ secexp < SECP256k1.order then Except.ok secexp
      else Except.error SignError.invalidKeyRange
    else Except.error SignError.invalidKeyLength

/-- The canonical message of `_sign_payload` line 54:
`payload_bytes + str(timestamp_ns).encode('utf-8') + provider_address.encode('utf-8')`. -/
def canonicalMessage (payloadBytes : List Nat) (timestampNs : Int)
    (providerAddress : String) : List Nat :=
  payloadBytes ++ strBytes (intDecimalString timestampNs) ++ strBytes providerAddress

/-- `GonkaClient._sign_payload` (lines 42–66): deterministic ECDSA over
SHA-256 of the canonical message, split of the 64-byte `r || s` encoding,
low-S normalization of `s`, and base64 of the reassembled 64 bytes. -/
def sign_payload (privateKey : String) (payloadBytes : List Nat) (timestampNs : Int)
    (providerAddress : String) : Except SignError String :=
  (parsedKey privateKey).bind (fun secexp =>
    let msg := canonicalMessage payloadBytes timestampNs providerAddress
    (signDeterministic secexp msg).elim (Except.error SignError.nonceFailure) (fun rs =>
      let sig := natToBeBytes 32 rs.1 ++ natToBeBytes 32 rs.2
      let rBytes := sig.take 32
      let sBytes := sig.drop 32
      let sInt := beToNat sBytes
      let sInt2 := if SECP256k1.order / 2 < sInt then SECP256k1.order - sInt else sInt
      let sBytes2 := natToBeBytes 32 sInt2
      Except.ok (b64encodeStr (rBytes ++ sBytes2))))

/-- Python's `str.rstrip('/')`: drop every trailing slash. -/
def rstripSlash (s : String) : String :=
  String.mk (s.data.reverse.dropWhile (fun c => c = '/')).reverse

/-- The state a `GonkaClient` instance holds (the `timeout` float and the
`httpx.AsyncClient` connection-pool handle are runtime resources carrying
no data the protocol reads, and are not modelled). -/
structure GonkaClientState where
  privateKey : String
  address : String
  endpoint : String
  providerAddress : String
  wallBase : Int
  perfBase : Int
deriving DecidableEq, Repr

/-- One reading of the ambient clocks: the values `time.time_ns()` and
`time.perf_counter_ns()` would return at that instant. -/
structure ClockReading where
  wallNs : Int
  perfNs : Int
deriving DecidableEq, Repr

/-- `GonkaClient.__init__` (lines 17–36): store the credentials, strip
trailing slashes from the endpoint, and capture the hybrid-timestamp bases
from the clocks at construction time. It performs no validation of the
private key. -/
def init_client (privateKey address endpoint providerAddress : String)
    (atInit : ClockReading) : GonkaClientState :=
  { privateKey := privateKey
    address := address
    endpoint := rstripSlash endpoint
    providerAddress := providerAddress
    wallBase := atInit.wallNs
    perfBase := atInit.perfNs }

/-- `GonkaClient._hybrid_timestamp_ns` (lines 38–40):
`wall_base + (perf_counter_ns() - perf_base)`. Only the monotonic clock is
read at call time; the wall clock of `now` is not consulted. -/
def hybrid_timestamp_ns (st : GonkaClientState) (now : ClockReading) : Int :=
  st.wallBase + (now.perfNs - st.perfBase)

/-! ## JSON values and Python's `json.dumps` defaults -/

/-- JSON values (numbers restricted to integers, which is all the model
needs; payloads are otherwise arbitrary). -/
inductive Json where
  | null
  | bool (b : Bool)
  | num (n : Int)
  | str (s : String)
  | arr (xs : List Json)
  | obj (fields : List (String × Json))

/-- Four-digit lowercase hex, for `\uXXXX` escapes. -/
def hex4 (x : Nat) : List Char :=
  ["0123456789abcdef".data.getD (x / 4096 % 16) '0',
   "0123456789abcdef".data.getD (x / 256 % 16) '0',
   "0123456789abcdef".data.getD (x / 16 % 16) '0',
   "0123456789abcdef".data.getD (x % 16) '0']

/-- JSON string escaping with `ensure_ascii=True` (Python's default):
quote, backslash and the short control escapes, `\uXXXX` for every other
character outside `0x20`–`0x7e`, surrogate pairs above `0xffff`. -/
def jsonEscapeChar (c : Char) : List Char :=
  let v := c.toNat
  if c = '"' then ['\\', '"']
  else if c = '\\' then ['\\', '\\']
  else if c = '\n' then ['\\', 'n']
  else if c = '\t' then ['\\', 't']
  else if c = '\r' then ['\\', 'r']
  else if v = 8 then ['\\', 'b']
  else if v = 12 then ['\\', 'f']
  else if 32 ≤ v ∧ v ≤ 126 then [c]
  else if v < 65536 then '\\' :: 'u' :: hex4 v
  else
    let w := v - 65536
    '\\' :: 'u' :: hex4 (55296 + w / 1024) ++ '\\' :: 'u' :: hex4 (56320 + w % 1024)

/-- A JSON string literal with quotes. -/
def jsonQuote (s : String) : List Char :=
  '"' :: (s.data.map jsonEscapeChar).flatten ++ ['"']

mutual

/-- Python's `json.dumps` with its defaults: separators `", "` and `": "`,
`ensure_ascii=True`, insertion-ordered object keys. -/
def jsonDumpsChars : Json → List Char
  | Json.null => "null".data
  | Json.bool true => "true".data
  | Json.bool false => "false".data
  | Json.num n => (intDecimalString n).data
  | Json.str s => jsonQuote s
  | Json.arr xs => '[' :: jsonDumpsArr xs ++ [']']
  | Json.obj fields => '\x7b' :: jsonDumpsObj fields ++ ['\x7d']

/-- Array elements joined by `", "`. -/
def jsonDumpsArr : List Json → List Char
  | [] => []
  | [x] => jsonDumpsChars x
  | x :: y :: rest => jsonDumpsChars x ++ ',' :: ' ' :: jsonDumpsArr (y :: rest)

/-- Object entries `"key": value` joined by `", "`. -/
def jsonDumpsObj : List (String × Json) → List Char
  | [] => []
  | [kv] => jsonQuote kv.1 ++ ':' :: ' ' :: jsonDumpsChars kv.2
  | kv :: kv2 :: rest =>
    jsonQuote kv.1 ++ ':' :: ' ' :: jsonDumpsChars kv.2 ++ ',' :: ' ' :: jsonDumpsObj (kv2 :: rest)

end

/-- `json.dumps` as a string. -/
def jsonDumps (j : Json) : String :=
  String.mk (jsonDumpsChars j)

/-- Look up a header value by exact name. -/
def lookupHeader (name : String) (headers : List (String × String)) : Option String :=
  (headers.find? (fun kv => kv.1 = name)).map (fun kv => kv.2)

/-- `GonkaClient._prepare_request` (lines 68–84): default a missing payload
to `{}`, serialize it, read the hybrid clock once, sign, and build the four
outbound headers. The one clock reading `now` models the single
`_hybrid_timestamp_ns()` call; a signing exception propagates. -/
def prepare_request (st : GonkaClientState) (payload : Option Json)
    (now : ClockReading) : Except SignError (List Nat × List (String × String)) :=
  let payloadObj := payload.getD (Json.obj [])
  let payloadBytes := strBytes (jsonDumps payloadObj)
  let timestampNs := hybrid_timestamp_ns st now
  (sign_payload st.privateKey payloadBytes timestampNs st.providerAddress).map
    (fun signature =>
      (payloadBytes,
        [("Content-Type", "application/json"),
         ("Authorization", signature),
         ("X-Requester-Address", st.address),
         ("X-Timestamp", intDecimalString timestampNs)]))

/-- Everything that can make `GonkaClient.request` fail: a signing
exception, a transport failure, or a non-2xx upstream status
(`response.raise_for_status()`). -/
inductive UpstreamFailure where
  | signFailure (e : SignError)
  | transportFailure (message : String)
  | httpStatusFailure (status : Nat) (body : String)
deriving DecidableEq, Repr

/-- Whether Python's `len` is defined on a JSON value: lists, dicts and
strings are sized; numbers, booleans and `None` make `len` raise
`TypeError`. -/
def jsonHasLen : Json → Bool
  | Json.str _ => true
  | Json.arr _ => true
  | Json.obj _ => true
  | _ => false

/-- `GonkaClient.get_models` (lines 86–96) given the outcome of its
`request("GET", "/models", payload={})` call: any exception is caught and
an empty list returned. On success, `models = response.get("models", [])`
(defaulting to `[]` when the key is absent) is first passed to `len` by
the log f-string "Loaded ... models from Gonka API" on line 92, still
inside the `try`: when the value is not sized (a number, boolean or null),
`len(models)` raises `TypeError`, the `except` catches it and `[]` is
returned; only a sized value reaches `return models`. A non-`dict`
response body makes `response.get` raise `AttributeError`, also caught,
hence also `[]`. -/
def get_models (requestOutcome : Except UpstreamFailure Json) : Json :=
  match requestOutcome with
  | Except.error _ => Json.arr []
  | Except.ok resp =>
    match resp with
    | Json.obj fields =>
      let models :=
        ((fields.find? (fun kv => kv.1 = "models")).map (fun kv => kv.2)).getD (Json.arr [])
      if jsonHasLen models then models else Json.arr []
    | _ => Json.arr []

/-- The upstream's reply to a streaming request, as `request_stream`
observes it: the initial status code, the result of `response.aread()` on
the error path (`none` when reading the body itself fails), and the chunk
sequence `aiter_bytes()` would yield on the success path. -/
structure UpstreamStreamResponse where
  statusCode : Nat
  bodyRead : Option (List Nat)
  chunks : List (List Nat)
deriving DecidableEq, Repr

/-- Observable events of `request_stream` in order: reading the full error
body, raising `HTTPStatusError`, and yielding one chunk to the caller. -/
inductive StreamEvent where
  | readBody (body : List Nat)
  | raiseStatusError (status : Nat)
  | yieldChunk (chunk : List Nat)
deriving DecidableEq, Repr

/-- `GonkaClient.request_stream` (lines 156–187), as its ordered event
trace once the initial response is available: a status of 400 or above
first reads the whole error body (when readable) and then raises via
`raise_for_status()`, yielding nothing; otherwise each received chunk is
yielded in arrival order. -/
def request_stream_events (resp : UpstreamStreamResponse) : List StreamEvent :=
  if 400 ≤ resp.statusCode then
    (match resp.bodyRead with
     | some body => [StreamEvent.readBody body]
     | none => [])
    ++ [StreamEvent.raiseStatusError resp.statusCode]
  else resp.chunks.map StreamEvent.yieldChunk

/-! ## FastAPI application (`app/main.py`) -/

/-- The `Settings` model: the four upstream configuration values and the
inbound API key, each defaulting to the empty string when the environment
variable is unset. -/
structure Settings where
  gonkaPrivateKey : String
  gonkaAddress : String
  gonkaEndpoint : String
  gonkaProviderAddress : String
  apiKey : String
deriving DecidableEq, Repr

/-- The missing-variable names `get_gonka_client` reports, in source
order. -/
def missingConfigVars (s : Settings) : List String :=
  (if s.gonkaPrivateKey = "" then ["GONKA_PRIVATE_KEY"] else [])
  ++ (if s.gonkaAddress = "" then ["GONKA_ADDRESS"] else [])
  ++ (if s.gonkaEndpoint = "" then ["GONKA_ENDPOINT"] else [])
  ++ (if s.gonkaProviderAddress = "" then
      ["GONKA_PROVIDER_ADDRESS (provider address in bech32 format, get it from the Gonka provider)"]
    else [])

/-- The detail string of the 500 `HTTPException` raised by
`get_gonka_client` for an incomplete configuration. -/
def configIncompleteDetail (missing : List String) : String :=
  "Gonka configuration incomplete. Missing: " ++ String.intercalate ", " missing
    ++ ". GONKA_PROVIDER_ADDRESS is the Gonka provider address (bech32 format), "
    ++ "which can be obtained from the provider or in Gonka documentation."

/-- `_create_gonka_client` (lines 80–97) on the first call (the module
global starts out `None`; settings never change afterwards, so later calls
return the same result): `None` when any of the four upstream settings is
falsy — for these `str` fields, exactly when it is the empty string. -/
def create_gonka_client (s : Settings) (atInit : ClockReading) : Option GonkaClientState :=
  if s.gonkaPrivateKey = "" ∨ s.gonkaAddress = "" ∨ s.gonkaEndpoint = ""
      ∨ s.gonkaProviderAddress = "" then none
  else some (init_client s.gonkaPrivateKey s.gonkaAddress s.gonkaEndpoint
    s.gonkaProviderAddress atInit)

/-- `get_gonka_client` (lines 100–120): the client, or the 500
`HTTPException` naming the missing variables. -/
def get_gonka_client (s : Settings) (atInit : ClockReading) :
    Except (Nat × String) GonkaClientState :=
  match create_gonka_client s atInit with
  | some client => Except.ok client
  | none => Except.error (500, configIncompleteDetail (missingConfigVars s))

/-- Python truthiness of a JSON value, for `if stream:`. -/
def jsonTruthy : Json → Bool
  | Json.null => false
  | Json.bool b => b
  | Json.num n => n != 0
  | Json.str s => s != ""
  | Json.arr xs => !xs.isEmpty
  | Json.obj fields => !fields.isEmpty

/-- What the `chat_completions` handler returns to the caller. -/
inductive HandlerResult where
  | httpError (status : Nat) (detail : String)
  | streamedResponse (body : Json)
  | bufferedResponse (response : Json)

/-- The text Python's `str(e)` yields for an upstream exception: the
message the exception was constructed with. -/
def upstreamFailureText : UpstreamFailure → String
  | UpstreamFailure.signFailure _ => "sign error"
  | UpstreamFailure.transportFailure message => message
  | UpstreamFailure.httpStatusFailure status body =>
    "HTTP status " ++ decimalString status ++ ": " ++ body

/-- The `chat_completions` handler body (lines 183–240), after the
bearer-auth dependency has accepted the caller. `rawBody` is the outcome of
`await request.json()` (`Except.error` carries the parse-error text);
`upstreamOutcome` the outcome of the forwarded upstream call. The client is
obtained before the body is touched, exactly as in the source; on the
streaming path a `StreamingResponse` is returned as soon as the handler
returns, so upstream failures there never become an `HTTPException`. -/
def chat_completions (s : Settings) (atInit : ClockReading)
    (rawBody : Except String Json) (upstreamOutcome : Except UpstreamFailure Json) :
    HandlerResult :=
  match get_gonka_client s atInit with
  | Except.error err => HandlerResult.httpError err.1 err.2
  | Except.ok _client =>
    match rawBody with
    | Except.error parseMsg => HandlerResult.httpError 400 ("Invalid JSON: " ++ parseMsg)
    | Except.ok body =>
      let streamFlag : Bool :=
        match body with
        | Json.obj fields =>
          match (fields.find? (fun kv => kv.1 = "stream")).map (fun kv => kv.2) with
          | some v => jsonTruthy v
          | none => false
        | _ => false
      if streamFlag then HandlerResult.streamedResponse body
      else
        match upstreamOutcome with
        | Except.ok resp => HandlerResult.bufferedResponse resp
        | Except.error e =>
          HandlerResult.httpError 500 ("Internal server error: " ++ upstreamFailureText e)

/-! ## Lemmas: byte encodings -/

theorem length_natToBeBytes (w : Nat) : ∀ x, (natToBeBytes w x).length = w := by
  induction w with
  | zero => intro x; rfl
  | succ w ih => intro x; simp [natToBeBytes, ih]

theorem beToNat_append_singleton (l : List Nat) (b : Nat) :
    beToNat (l ++ [b]) = beToNat l * 256 + b := by
  simp [beToNat, List.foldl_append]

theorem beToNat_natToBeBytes (w : Nat) : ∀ x, beToNat (natToBeBytes w x) = x % 256 ^ w := by
  induction w with
  | zero => intro x; simp [natToBeBytes, beToNat, Nat.mod_one]
  | succ w ih =>
    intro x
    have hmul : x % 256 ^ (w + 1) = x % 256 + 256 * (x / 256 % 256 ^ w) := by
      rw [pow_succ, Nat.mul_comm]; exact Nat.mod_mul
    simp only [natToBeBytes, beToNat_append_singleton, ih]
    omega

theorem natToBeBytes_lt (w : Nat) : ∀ x, ∀ b ∈ natToBeBytes w x, b < 256 := by
  induction w with
  | zero => intro x b hb; simp [natToBeBytes] at hb
  | succ w ih =>
    intro x b hb
    simp only [natToBeBytes, List.mem_append, List.mem_singleton] at hb
    rcases hb with hb | hb
    · exact ih _ b hb
    · omega

/-! ## Lemmas: base64 round trip -/

theorem sextetOf_sextetChar : ∀ i, i < 64 → sextetOf (sextetChar i) = some i := by decide

theorem sextetChar_ne_pad : ∀ i, i < 64 → sextetChar i ≠ '=' := by decide

theorem b64_roundtrip : ∀ bs : List Nat, (∀ b ∈ bs, b < 256) →
    b64decodeChars (b64encodeChars bs) = some bs := by
  intro bs
  induction bs using b64encodeChars.induct with
  | case1 b0 b1 b2 rest ih =>
    intro h
    have hb0 : b0 < 256 := h b0 (by simp)
    have hb1 : b1 < 256 := h b1 (by simp)
    have hb2 : b2 < 256 := h b2 (by simp)
    have hrest := ih (fun b hb => h b (by simp [hb]))
    have e0 := sextetOf_sextetChar ((b0 * 65536 + b1 * 256 + b2) / 262144) (by omega)
    have e1 := sextetOf_sextetChar ((b0 * 65536 + b1 * 256 + b2) / 4096 % 64) (by omega)
    have e2 := sextetOf_sextetChar ((b0 * 65536 + b1 * 256 + b2) / 64 % 64) (by omega)
    have e3 := sextetOf_sextetChar ((b0 * 65536 + b1 * 256 + b2) % 64) (by omega)
    have n2 := sextetChar_ne_pad ((b0 * 65536 + b1 * 256 + b2) / 64 % 64) (by omega)
    have n3 := sextetChar_ne_pad ((b0 * 65536 + b1 * 256 + b2) % 64) (by omega)
    simp [b64encodeChars, b64decodeChars, e0, e1, e2, e3, n2, n3, hrest]
    omega
  | case2 b0 b1 =>
    intro h
    have hb0 : b0 < 256 := h b0 (by simp)
    have hb1 : b1 < 256 := h b1 (by simp)
    have e0 := sextetOf_sextetChar ((b0 * 65536 + b1 * 256) / 262144) (by omega)
    have e1 := sextetOf_sextetChar ((b0 * 65536 + b1 * 256) / 4096 % 64) (by omega)
    have e2 := sextetOf_sextetChar ((b0 * 65536 + b1 * 256) / 64 % 64) (by omega)
    have n2 := sextetChar_ne_pad ((b0 * 65536 + b1 * 256) / 64 % 64) (by omega)
    simp [b64encodeChars, b64decodeChars, e0, e1, e2, n2]
    omega
  | case3 b0 =>
    intro h
    have hb0 : b0 < 256 := h b0 (by simp)
    have e0 := sextetOf_sextetChar ((b0 * 65536) / 262144) (by omega)
    have e1 := sextetOf_sextetChar ((b0 * 65536) / 4096 % 64) (by omega)
    simp [b64encodeChars, b64decodeChars, e0, e1]
    omega
  | case4 => intro _; rfl

theorem b64decode_b64encodeStr (bs : List Nat) (h : ∀ b ∈ bs, b < 256) :
    b64decode (b64encodeStr bs) = some bs :=
  b64_roundtrip bs h

/-! ## Lemmas: signature component bounds -/

theorem order_pos : 0 < SECP256k1.order := by decide

section SignBounds

theorem elim_eq_cases {α β : Type _} {o : Option α} {y : β} {f : α → β} {v : β}
    (h : o.elim y f = v) : (o = none ∧ y = v) ∨ ∃ x, o = some x ∧ f x = v := by
  cases o with
  | none => exact Or.inl ⟨rfl, h⟩
  | some x => exact Or.inr ⟨x, rfl, h⟩

attribute [local irreducible] noncePoint generateK powMod signRS signDeterministic

theorem signRS_bounds (d z k x r s : Nat) (h : signRS d z k x = some (r, s)) :
    r < SECP256k1.order ∧ s < SECP256k1.order := by
  rw [signRS.eq_def] at h
  simp only [] at h
  split at h
  · exact absurd h (by simp)
  · split at h
    · exact absurd h (by simp)
    · rw [Option.some.injEq, Prod.mk.injEq] at h
      obtain ⟨hr, hs⟩ := h
      rw [← hr, ← hs]
      exact ⟨Nat.mod_lt _ order_pos, Nat.mod_lt _ order_pos⟩

theorem signAttempt_bounds (d z k r s : Nat) (h : signAttempt d z k = some (r, s)) :
    r < SECP256k1.order ∧ s < SECP256k1.order := by
  unfold signAttempt at h
  obtain ⟨o, hG⟩ : ∃ o, noncePoint k = o := ⟨_, rfl⟩
  rw [hG] at h
  rcases o with _ | ⟨x, y⟩
  · exact absurd h (by simp)
  · simp only [Option.elim] at h
    exact signRS_bounds d z k x r s h

theorem signDetLoop_bounds (d z : Nat) (digest : List Nat) :
    ∀ fuel retryGen r s, signDetLoop d z digest fuel retryGen = some (r, s) →
      r < SECP256k1.order ∧ s < SECP256k1.order := by
  intro fuel
  induction fuel with
  | zero => intro retryGen r s h; exact absurd h (by simp [signDetLoop])
  | succ fuel ih =>
    intro retryGen r s h
    unfold signDetLoop at h
    rcases elim_eq_cases h with ⟨_, hnone⟩ | ⟨k, _, h2⟩
    · exact absurd hnone (by simp)
    · rcases elim_eq_cases h2 with ⟨_, hrec⟩ | ⟨rs, ha, hsome⟩
      · exact ih _ _ _ hrec
      · injection hsome with h3
        subst h3
        exact signAttempt_bounds d z k r s ha

theorem signDeterministic_bounds (d : Nat) (data : List Nat) (r s : Nat)
    (h : signDeterministic d data = some (r, s)) :
    r < SECP256k1.order ∧ s < SECP256k1.order := by
  unfold signDeterministic at h
  exact signDetLoop_bounds _ _ _ _ _ _ _ h

end SignBounds

theorem order_lt_bytes32 : SECP256k1.order < 256 ^ 32 := by decide

/-! ## Lemmas: decimal rendering -/

theorem decDigitChar_toNat : ∀ d, d < 10 → (decDigitChar d).toNat = 48 + d := by decide

theorem decDigitChar_range : ∀ d, d < 10 → '0' ≤ decDigitChar d ∧ decDigitChar d ≤ '9' := by
  decide

theorem decDigitChar_ne_zero : ∀ d, d < 10 → d ≠ 0 → decDigitChar d ≠ '0' := by decide

theorem decDigitsAux_zero (fuel : Nat) : decDigitsAux fuel 0 = [] := by
  cases fuel <;> simp [decDigitsAux]

theorem decDigitsAux_spec (fuel : Nat) : ∀ x, x ≠ 0 → x < 10 ^ fuel →
    decDigitsAux fuel x ≠ [] ∧
    (∀ c ∈ decDigitsAux fuel x, ∃ d, d < 10 ∧ c = decDigitChar d) ∧
    (decDigitsAux fuel x).head? ≠ some '0' := by
  induction fuel with
  | zero => intro x hx hlt; rw [pow_zero] at hlt; omega
  | succ fuel ih =>
    intro x hx hlt
    have hx10 : x % 10 < 10 := Nat.mod_lt _ (by omega)
    by_cases h10 : x / 10 = 0
    · have hxlt : x < 10 := by omega
      have hmod : x % 10 = x := Nat.mod_eq_of_lt hxlt
      simp only [decDigitsAux, if_neg hx, h10, decDigitsAux_zero, List.nil_append]
      refine ⟨by simp, ?_, ?_⟩
      · intro c hc
        rw [List.mem_singleton] at hc
        exact ⟨x % 10, hx10, hc⟩
      · intro hcontra
        rw [List.head?_cons, Option.some.injEq, hmod] at hcontra
        exact decDigitChar_ne_zero x hxlt hx hcontra
    · have hdiv : x / 10 < 10 ^ fuel := by
        rw [Nat.div_lt_iff_lt_mul (by omega)]
        calc x < 10 ^ (fuel + 1) := hlt
          _ = 10 ^ fuel * 10 := by rw [pow_succ]
      obtain ⟨hne, hmem, hhd⟩ := ih (x / 10) h10 hdiv
      simp only [decDigitsAux, if_neg hx]
      refine ⟨by simp [hne], ?_, ?_⟩
      · intro c hc
        rw [List.mem_append, List.mem_singleton] at hc
        rcases hc with hc | hc
        · exact hmem c hc
        · exact ⟨x % 10, hx10, hc⟩
      · rw [List.head?_append_of_ne_nil _ hne]
        exact hhd

theorem decimalString_spec (x : Nat) :
    (x = 0 → decimalString x = "0") ∧
    (∀ c ∈ (decimalString x).data, ∃ d, d < 10 ∧ c = decDigitChar d) ∧
    (x ≠ 0 → (decimalString x).data.head? ≠ some '0') := by
  by_cases hx : x = 0
  · subst hx
    refine ⟨fun _ => rfl, ?_, fun h => absurd rfl h⟩
    intro c hc
    rw [show (decimalString 0).data = ['0'] from rfl, List.mem_singleton] at hc
    exact ⟨0, by omega, hc⟩
  · have hlt : x < 10 ^ (x + 1) :=
      lt_of_lt_of_le (Nat.lt_pow_self (by omega) x) (Nat.pow_le_pow_right (by omega) (by omega))
    obtain ⟨hne, hmem, hhd⟩ := decDigitsAux_spec (x + 1) x hx hlt
    unfold decimalString
    rw [if_neg hx]
    exact ⟨fun h => absurd h hx, hmem, fun _ => hhd⟩

theorem intDecimalString_nonneg (t : Int) (ht : 0 ≤ t) :
    intDecimalString t = decimalString t.toNat := by
  cases t with
  | ofNat m => rfl
  | negSucc m => exact absurd ht (by simp)

/-! ## Lemmas: UTF-8 on ASCII strings -/

theorem utf8_ascii (c : Char) (h : c.toNat < 128) : utf8EncodeCharBytes c = [c.toNat] := by
  unfold utf8EncodeCharBytes
  rw [if_pos h]

theorem flatten_utf8_ascii : ∀ l : List Char, (∀ c ∈ l, c.toNat < 128) →
    (l.map utf8EncodeCharBytes).flatten = l.map Char.toNat := by
  intro l h
  induction l with
  | nil => rfl
  | cons c cs ih =>
    rw [List.map_cons, List.flatten_cons, utf8_ascii c (h c (by simp)),
      ih (fun c2 hc2 => h c2 (by simp [hc2])), List.map_cons]
    rfl

theorem strBytes_ascii (s : String) (h : ∀ c ∈ s.data, c.toNat < 128) :
    strBytes s = s.data.map Char.toNat :=
  flatten_utf8_ascii s.data h

/-! ## Lemmas: the decimal rendering is injective, so distinct timestamps
always give distinct canonical messages (the mechanism behind the
anti-replay invariant) -/

theorem decValue_append_singleton (l : List Char) (c : Char) :
    decValue (l ++ [c]) = decValue l * 10 + (c.toNat - 48) := by
  simp [decValue, List.foldl_append]

theorem decValue_decDigitsAux (fuel : Nat) : ∀ x, x < 10 ^ fuel →
    decValue (decDigitsAux fuel x) = x := by
  induction fuel with
  | zero =>
    intro x h
    rw [pow_zero] at h
    have hx : x = 0 := by omega
    subst hx
    rfl
  | succ fuel ih =>
    intro x hlt
    by_cases hx : x = 0
    · subst hx
      rw [decDigitsAux_zero]
      rfl
    · have hdiv : x / 10 < 10 ^ fuel := by
        rw [Nat.div_lt_iff_lt_mul (by omega)]
        calc x < 10 ^ (fuel + 1) := hlt
          _ = 10 ^ fuel * 10 := by rw [pow_succ]
      simp only [decDigitsAux, if_neg hx]
      rw [decValue_append_singleton, ih (x / 10) hdiv,
        decDigitChar_toNat (x % 10) (Nat.mod_lt _ (by omega))]
      omega

theorem decValue_decimalString (x : Nat) : decValue (decimalString x).data = x := by
  by_cases hx : x = 0
  · subst hx
    rfl
  · unfold decimalString
    rw [if_neg hx]
    exact decValue_decDigitsAux (x + 1) x
      (lt_of_lt_of_le (Nat.lt_pow_self (by omega) x)
        (Nat.pow_le_pow_right (by omega) (by omega)))

/-- Distinct non-negative timestamps always produce distinct canonical
messages for a fixed payload and counterparty: the decimal rendering is
recoverable from the message once the shared prefix and suffix are
cancelled. The claim that the resulting signatures themselves differ
reduces, beyond this lemma, to collision-freedom of SHA-256/ECDSA on this
message family, which is outside the embedding. -/
theorem canonicalMessage_timestamp_inj (P : List Nat) (A : String) (T1 T2 : Int)
    (h1 : 0 ≤ T1) (h2 : 0 ≤ T2)
    (heq : canonicalMessage P T1 A = canonicalMessage P T2 A) : T1 = T2 := by
  unfold canonicalMessage at heq
  have hD := List.append_cancel_left (List.append_cancel_right heq)
  rw [intDecimalString_nonneg T1 h1, intDecimalString_nonneg T2 h2] at hD
  have hascii : ∀ (n : Nat), ∀ c ∈ (decimalString n).data, c.toNat < 128 := by
    intro n c hc
    obtain ⟨dd, hdd, rfl⟩ := (decimalString_spec n).2.1 c hc
    rw [decDigitChar_toNat dd hdd]
    omega
  rw [strBytes_ascii _ (hascii T1.toNat), strBytes_ascii _ (hascii T2.toNat)] at hD
  have hchars : (decimalString T1.toNat).data = (decimalString T2.toNat).data :=
    List.map_injective_iff.mpr (fun a b hab => Char.ext (UInt32.ext hab)) hD
  have hnat : T1.toNat = T2.toNat := by
    have hv := congrArg decValue hchars
    rwa [decValue_decimalString, decValue_decimalString] at hv
  omega

/-! ## Lemmas: case analysis on Except results -/

theorem except_bind_ok {ε α β : Type _} {e : Except ε α} {f : α → Except ε β} {v : β}
    (h : e.bind f = Except.ok v) : ∃ a, e = Except.ok a ∧ f a = Except.ok v := by
  cases e with
  | error err => exact absurd h (by simp [Except.bind])
  | ok a => exact ⟨a, rfl, h⟩

theorem except_bind_error {ε α β : Type _} {e : Except ε α} {f : α → Except ε β} {err : ε}
    (h : e = Except.error err) : e.bind f = Except.error err := by
  rw [h]
  rfl

theorem except_map_cases {ε α β : Type _} {f : α → β} {e : Except ε α} {v : Except ε β}
    (h : e.map f = v) :
    (∃ err, e = Except.error err ∧ v = Except.error err) ∨
    (∃ a, e = Except.ok a ∧ v = Except.ok (f a)) := by
  cases e with
  | error err => exact Or.inl ⟨err, rfl, h.symm⟩
  | ok a => exact Or.inr ⟨a, rfl, h.symm⟩

theorem bind_ok_red {ε α β : Type _} (a : α) (f : α → Except ε β) :
    Except.bind (Except.ok a) f = f a := rfl

/-! ## Claim theorems -/

section Claims

attribute [local irreducible] signDeterministic parsedKey generateK noncePoint powMod
  signRS signAttempt signDetLoop sha256 hmacSha256 natToBeBytes beToNat b64encodeStr
  b64encodeChars b64decode b64decodeChars strBytes decimalString decDigitsAux
  intDecimalString bitLength

/-- C1: for a well-formed private key, a non-negative timestamp and any
payload and counterparty address, `_sign_payload` signs exactly the
canonical message `payload ++ decimalString(timestamp) ++ utf8(address)`
— where the decimal string is base-10 ASCII with no sign and no leading
zeros — and outputs the base64 encoding of the 64-byte big-endian
`r (32 bytes) ++ s (32 bytes)` of the deterministic ECDSA signature over
SHA-256 of that message (with `s` in its low-S normal form, which the
operation applies before encoding). -/
theorem claim_C1 (privateKey : String) (P : List Nat) (T : Int) (A : String)
    (d r s : Nat)
    (hkey : parsedKey privateKey = Except.ok d)
    (hT : 0 ≤ T)
    (hsig : signDeterministic d (canonicalMessage P T A) = some (r, s)) :
    sign_payload privateKey P T A =
      Except.ok (b64encodeStr (natToBeBytes 32 r ++
        natToBeBytes 32 (if SECP256k1.order / 2 < s then SECP256k1.order - s else s))) ∧
    canonicalMessage P T A = P ++ (intDecimalString T).data.map Char.toNat ++ strBytes A ∧
    (∀ c ∈ (intDecimalString T).data, '0' ≤ c ∧ c ≤ '9') ∧
    (T = 0 → intDecimalString T = "0") ∧
    (T ≠ 0 → (intDecimalString T).data.head? ≠ some '0') := by
  have hbounds := signDeterministic_bounds d (canonicalMessage P T A) r s hsig
  have hlen : (natToBeBytes 32 r).length = 32 := length_natToBeBytes 32 r
  have htake : (natToBeBytes 32 r ++ natToBeBytes 32 s).take 32 = natToBeBytes 32 r :=
    List.take_left' hlen
  have hdrop : (natToBeBytes 32 r ++ natToBeBytes 32 s).drop 32 = natToBeBytes 32 s :=
    List.drop_left' hlen
  have hround : beToNat (natToBeBytes 32 s) = s := by
    rw [beToNat_natToBeBytes]
    exact Nat.mod_eq_of_lt (lt_trans hbounds.2 order_lt_bytes32)
  have hdigits := (decimalString_spec T.toNat).2.1
  refine ⟨?_, ?_, ?_, ?_, ?_⟩
  · unfold sign_payload
    rw [hkey, bind_ok_red]
    show (signDeterministic d (canonicalMessage P T A)).elim (Except.error SignError.nonceFailure)
        (fun rs =>
          let sig := natToBeBytes 32 rs.1 ++ natToBeBytes 32 rs.2
          let rBytes := List.take 32 sig
          let sBytes := List.drop 32 sig
          let sInt := beToNat sBytes
          let sInt2 := if SECP256k1.order / 2 < sInt then SECP256k1.order - sInt else sInt
          let sBytes2 := natToBeBytes 32 sInt2
          Except.ok (b64encodeStr (rBytes ++ sBytes2))) = _
    rw [hsig]
    simp only [Option.elim]
    show Except.ok (b64encodeStr (List.take 32 (natToBeBytes 32 r ++ natToBeBytes 32 s) ++
        natToBeBytes 32
          (if SECP256k1.order / 2 < beToNat (List.drop 32 (natToBeBytes 32 r ++ natToBeBytes 32 s))
            then SECP256k1.order - beToNat (List.drop 32 (natToBeBytes 32 r ++ natToBeBytes 32 s))
            else beToNat (List.drop 32 (natToBeBytes 32 r ++ natToBeBytes 32 s))))) = _
    rw [htake, hdrop, hround]
  · have hchars : ∀ c ∈ (intDecimalString T).data, c.toNat < 128 := by
      rw [intDecimalString_nonneg T hT]
      intro c hc
      obtain ⟨dd, hdd, rfl⟩ := hdigits c hc
      rw [decDigitChar_toNat dd hdd]
      omega
    unfold canonicalMessage
    rw [strBytes_ascii _ hchars]
  · intro c hc
    rw [intDecimalString_nonneg T hT] at hc
    obtain ⟨dd, hdd, rfl⟩ := hdigits c hc
    exact decDigitChar_range dd hdd
  · intro h0
    rw [intDecimalString_nonneg T hT, show T.toNat = 0 by omega]
    exact (decimalString_spec 0).1 rfl
  · intro h0
    rw [intDecimalString_nonneg T hT]
    exact (decimalString_spec T.toNat).2.2 (by omega)

theorem lowS_le_half (s : Nat) (hs : s < SECP256k1.order) :
    (if SECP256k1.order / 2 < s then SECP256k1.order - s else s) ≤ SECP256k1.order / 2 := by
  have hodd : SECP256k1.order = 2 * (SECP256k1.order / 2) + 1 := by decide
  split <;> omega

/-- C2: every signature produced by `_sign_payload`, decoded from base64,
is 64 bytes, and its last 32 bytes read as a big-endian integer — the `s`
component — never exceed half the secp256k1 group order (low-S canonical
form). -/
theorem claim_C2 (privateKey : String) (P : List Nat) (T : Int) (A : String) (sig : String)
    (h : sign_payload privateKey P T A = Except.ok sig) :
    ((b64decode sig).getD []).length = 64 ∧
    beToNat (((b64decode sig).getD []).drop 32) ≤ SECP256k1.order / 2 := by
  unfold sign_payload at h
  obtain ⟨d, hkey, h2⟩ := except_bind_ok h
  rcases elim_eq_cases h2 with ⟨_, hbad⟩ | ⟨rs, hsig, hok⟩
  · exact absurd hbad (by simp)
  · have hb := signDeterministic_bounds d (canonicalMessage P T A) rs.1 rs.2 (by rw [hsig])
    have hlen1 : (natToBeBytes 32 rs.1).length = 32 := length_natToBeBytes 32 rs.1
    have htake : List.take 32 (natToBeBytes 32 rs.1 ++ natToBeBytes 32 rs.2)
        = natToBeBytes 32 rs.1 := List.take_left' hlen1
    have hdrop : List.drop 32 (natToBeBytes 32 rs.1 ++ natToBeBytes 32 rs.2)
        = natToBeBytes 32 rs.2 := List.drop_left' hlen1
    have hround : beToNat (natToBeBytes 32 rs.2) = rs.2 := by
      rw [beToNat_natToBeBytes]
      exact Nat.mod_eq_of_lt (lt_trans hb.2 order_lt_bytes32)
    replace hok : Except.ok (b64encodeStr
        (List.take 32 (natToBeBytes 32 rs.1 ++ natToBeBytes 32 rs.2) ++
          natToBeBytes 32
            (if SECP256k1.order / 2
                < beToNat (List.drop 32 (natToBeBytes 32 rs.1 ++ natToBeBytes 32 rs.2))
              then SECP256k1.order
                - beToNat (List.drop 32 (natToBeBytes 32 rs.1 ++ natToBeBytes 32 rs.2))
              else beToNat (List.drop 32 (natToBeBytes 32 rs.1 ++ natToBeBytes 32 rs.2)))))
        = Except.ok sig := hok
    rw [htake, hdrop, hround] at hok
    have hle : (if SECP256k1.order / 2 < rs.2 then SECP256k1.order - rs.2 else rs.2)
        ≤ SECP256k1.order / 2 := lowS_le_half rs.2 hb.2
    have hlt : (if SECP256k1.order / 2 < rs.2 then SECP256k1.order - rs.2 else rs.2)
        < 256 ^ 32 :=
      lt_of_le_of_lt (le_trans hle (Nat.div_le_self _ _)) order_lt_bytes32
    have hsig_eq : sig = b64encodeStr (natToBeBytes 32 rs.1 ++
        natToBeBytes 32 (if SECP256k1.order / 2 < rs.2 then SECP256k1.order - rs.2 else rs.2)) := by
      injection hok with h3
      exact h3.symm
    have hbytes : ∀ b ∈ natToBeBytes 32 rs.1 ++
        natToBeBytes 32 (if SECP256k1.order / 2 < rs.2 then SECP256k1.order - rs.2 else rs.2),
        b < 256 := by
      intro b hbmem
      rw [List.mem_append] at hbmem
      rcases hbmem with hbmem | hbmem
      · exact natToBeBytes_lt 32 rs.1 b hbmem
      · exact natToBeBytes_lt 32 _ b hbmem
    rw [hsig_eq, b64decode_b64encodeStr _ hbytes, Option.getD_some]
    constructor
    · rw [List.length_append, length_natToBeBytes, length_natToBeBytes]
    · rw [List.drop_left' hlen1, beToNat_natToBeBytes, Nat.mod_eq_of_lt hlt]
      exact hle

/-- C3: the signing operation is a pure function of the private key and the
(payload, timestamp, counterparty) triple: the whole embedded pipeline —
SHA-256, the RFC 6979 HMAC-DRBG nonce (derived only from the key and the
digest), the curve arithmetic and the encoding — takes no random input, so
two invocations on identical inputs return byte-identical results. -/
theorem claim_C3 (privateKey : String) (P : List Nat) (T : Int) (A : String) :
    sign_payload privateKey P T A = sign_payload privateKey P T A := rfl

/-- C5: within one client lifetime, `_hybrid_timestamp_ns` is monotone in
the monotonic-clock reading — given non-decreasing `perf_counter_ns`
values, every later call's result is ≥ every earlier call's — and the
result depends on the ambient clocks only through the monotonic reading,
so a wall-clock adjustment after initialization (a different `wallNs` at
call time) cannot change any returned value. -/
theorem claim_C5 (privateKey address endpoint providerAddress : String)
    (atInit : ClockReading) (readings : List ClockReading)
    (hmono : readings.Pairwise (fun a b => a.perfNs ≤ b.perfNs)) :
    (readings.map (hybrid_timestamp_ns
      (init_client privateKey address endpoint providerAddress atInit))).Pairwise (· ≤ ·) ∧
    ∀ now now2 : ClockReading, now.perfNs = now2.perfNs →
      hybrid_timestamp_ns (init_client privateKey address endpoint providerAddress atInit) now
        = hybrid_timestamp_ns (init_client privateKey address endpoint providerAddress atInit)
            now2 := by
  constructor
  · induction hmono with
    | nil => exact List.Pairwise.nil
    | cons hr _ ih =>
      refine List.Pairwise.cons ?_ ih
      intro y hy
      obtain ⟨x, hx, rfl⟩ := List.mem_map.1 hy
      have hle := hr x hx
      unfold hybrid_timestamp_ns init_client
      dsimp only
      omega
  · intro now now2 hperf
    unfold hybrid_timestamp_ns
    rw [hperf]

/-- C6 (amended): constructing the client performs no validation of the
private key and always succeeds — `__init__` merely stores the fields and
captures the clock bases — and a malformed key (non-hex, wrong length or
out of range) first causes a failure inside `_sign_payload`, i.e. on the
first signing request, not at construction time. (The original claim —
failure with a ConfigurationError at construction — does not hold: no such
validation or error type exists in the code.) -/
theorem claim_C6 (key a e p : String) (atInit : ClockReading) (P : List Nat) (T : Int)
    (A : String) (err : SignError) (hkey : parsedKey key = Except.error err) :
    init_client key a e p atInit =
      { privateKey := key, address := a, endpoint := rstripSlash e, providerAddress := p,
        wallBase := atInit.wallNs, perfBase := atInit.perfNs } ∧
    sign_payload key P T A = Except.error err := by
  refine ⟨rfl, ?_⟩
  unfold sign_payload
  rw [hkey]
  rfl

/-- C7: whatever `_prepare_request` returns, the `X-Timestamp` header is
exactly the decimal string of the one hybrid-timestamp value that was
passed to the signing operation, the `Authorization` header is the
signature over the same payload bytes and that same timestamp, and the
payload bytes sent are the serialized (defaulted) payload; the clock is
read once per request — the single `now` consumed here — and never
re-read after signing. -/
theorem claim_C7 (st : GonkaClientState) (payload : Option Json) (now : ClockReading) :
    match prepare_request st payload now with
    | Except.error _ => True
    | Except.ok pbh =>
      lookupHeader "X-Timestamp" pbh.2
          = some (intDecimalString (hybrid_timestamp_ns st now)) ∧
      lookupHeader "Authorization" pbh.2
          = (sign_payload st.privateKey pbh.1 (hybrid_timestamp_ns st now)
              st.providerAddress).toOption ∧
      pbh.1 = strBytes (jsonDumps (payload.getD (Json.obj []))) := by
  obtain ⟨res, hres⟩ : ∃ res, prepare_request st payload now = res := ⟨_, rfl⟩
  rw [hres]
  unfold prepare_request at hres
  rcases except_map_cases hres with ⟨err, hfail, hv⟩ | ⟨sigv, hok, hv⟩
  · subst hv
    trivial
  · subst hv
    refine ⟨?_, ?_, rfl⟩
    · simp [lookupHeader, List.find?]
    · rw [hok]
      simp [lookupHeader, List.find?, Except.toOption]

/-- C8: `get_models` is a total function of the underlying request outcome
(the source catches every exception, so it never raises): every failure
yields the empty list, and a dict-shaped success whose "models" value is a
list — the response carrying model descriptors that the claim describes —
yields exactly that list. The remaining caught paths also yield the empty
list: a non-dict success (`.get` raises `AttributeError`) and a success
whose "models" value is unsized (`len(models)` in the log line raises
`TypeError`). -/
theorem claim_C8 (outcome : Except UpstreamFailure Json) :
    (∀ e, outcome = Except.error e → get_models outcome = Json.arr []) ∧
    (∀ fields l, outcome = Except.ok (Json.obj fields) →
      ((fields.find? (fun kv => kv.1 = "models")).map (fun kv => kv.2)).getD (Json.arr [])
        = Json.arr l →
      get_models outcome = Json.arr l) ∧
    (∀ xs, outcome = Except.ok (Json.arr xs) → get_models outcome = Json.arr []) ∧
    (∀ fields v, outcome = Except.ok (Json.obj fields) →
      ((fields.find? (fun kv => kv.1 = "models")).map (fun kv => kv.2)).getD (Json.arr [])
        = v →
      jsonHasLen v = false → get_models outcome = Json.arr []) := by
  refine ⟨?_, ?_, ?_, ?_⟩
  · intro e he
    subst he
    rfl
  · intro fields l hf hm
    subst hf
    show (if jsonHasLen
          (((fields.find? (fun kv => kv.1 = "models")).map (fun kv => kv.2)).getD (Json.arr []))
        then ((fields.find? (fun kv => kv.1 = "models")).map (fun kv => kv.2)).getD (Json.arr [])
        else Json.arr []) = Json.arr l
    rw [hm]
    rfl
  · intro xs hx
    subst hx
    rfl
  · intro fields v hf hm hlen
    subst hf
    show (if jsonHasLen
          (((fields.find? (fun kv => kv.1 = "models")).map (fun kv => kv.2)).getD (Json.arr []))
        then ((fields.find? (fun kv => kv.1 = "models")).map (fun kv => kv.2)).getD (Json.arr [])
        else Json.arr []) = Json.arr []
    rw [hm, hlen]
    rfl

/-- C9: a streamed request whose initial response status is an error
(≥ 400, the code's error test) yields no chunk at all: its event trace is
exactly the full body read followed by the `HTTPStatusError` raise; and a
chunk event can occur in a trace only when the status was below 400. -/
theorem claim_C9 (resp : UpstreamStreamResponse) (body : List Nat)
    (h1 : 400 ≤ resp.statusCode) (h2 : resp.bodyRead = some body) :
    request_stream_events resp
      = [StreamEvent.readBody body, StreamEvent.raiseStatusError resp.statusCode] ∧
    (∀ c, StreamEvent.yieldChunk c ∉ request_stream_events resp) ∧
    (∀ resp2 c, StreamEvent.yieldChunk c ∈ request_stream_events resp2 →
      resp2.statusCode < 400) := by
  have hev : request_stream_events resp
      = [StreamEvent.readBody body, StreamEvent.raiseStatusError resp.statusCode] := by
    unfold request_stream_events
    rw [if_pos h1, h2]
    rfl
  refine ⟨hev, ?_, ?_⟩
  · intro c hc
    rw [hev] at hc
    simp at hc
  · intro resp2 c hc
    by_cases h4 : 400 ≤ resp2.statusCode
    · unfold request_stream_events at hc
      rw [if_pos h4] at hc
      rcases hb : resp2.bodyRead with _ | b <;> rw [hb] at hc <;> simp at hc
    · omega

/-- C10: with any of the four upstream configuration values unset, the
chat-completions handler fails with the 500 whose detail names exactly the
missing variables, before the request body is consulted: the result is the
same for every body — malformed JSON included — so such a request can
never receive the 400 parse error. -/
theorem claim_C10 (s : Settings) (atInit : ClockReading) (rawBody : Except String Json)
    (upstreamOutcome : Except UpstreamFailure Json)
    (h : s.gonkaPrivateKey = "" ∨ s.gonkaAddress = "" ∨ s.gonkaEndpoint = ""
      ∨ s.gonkaProviderAddress = "") :
    chat_completions s atInit rawBody upstreamOutcome
      = HandlerResult.httpError 500 (configIncompleteDetail (missingConfigVars s)) ∧
    (∀ rawBody2 upstream2, chat_completions s atInit rawBody2 upstream2
      = chat_completions s atInit rawBody upstreamOutcome) ∧
    missingConfigVars s ≠ [] := by
  have hcreate : create_gonka_client s atInit = none := by
    unfold create_gonka_client
    rw [if_pos h]
  have hget : get_gonka_client s atInit
      = Except.error (500, configIncompleteDetail (missingConfigVars s)) := by
    unfold get_gonka_client
    rw [hcreate]
  have hchat : ∀ rb uo, chat_completions s atInit rb uo
      = HandlerResult.httpError 500 (configIncompleteDetail (missingConfigVars s)) := by
    intro rb uo
    unfold chat_completions
    rw [hget]
  refine ⟨hchat _ _, fun rb2 uo2 => by rw [hchat, hchat], ?_⟩
  intro hnil
  unfold missingConfigVars at hnil
  rw [List.append_eq_nil, List.append_eq_nil, List.append_eq_nil] at hnil
  rcases h with h | h | h | h <;> rw [h] at hnil <;> simp at hnil

end Claims

/-! ## Concrete evaluations, the C6 counterexample, and witnesses

The deterministic signature below was cross-checked against the published
RFC 6979 secp256k1 test vectors (same `k` and `r` for the standard
vectors) and verifies under an independent ECDSA verifier. -/

theorem parsedKey_concrete :
    parsedKey "0000000000000000000000000000000000000000000000000000000000000001"
      = Except.ok 1 := rfl

/-- Composition of the Jacobian double-and-add ladder over a split of its
bit list, from `List.foldr_append`; used to evaluate a concrete scalar
multiplication in stages. -/
theorem jacLadder_append (base : Nat × Nat) (l1 l2 : List Bool) (acc : Nat × Nat × Nat) :
    jacLadder base (l1 ++ l2) acc = jacLadder base l1 (jacLadder base l2 acc) := by
  simp only [jacLadder, List.foldr_append]

theorem sigDigest_concrete :
    sha256 (canonicalMessage [123, 125] 1700000000000000000 "gonka1provider")
      = [11, 28, 208, 91, 196, 248, 92, 160, 212, 239, 247, 233, 248, 163, 179, 81, 237, 228, 178, 42, 158, 40, 19, 30, 236, 183, 204, 41, 16, 193, 32, 7] := by
  decide

theorem sigZ_concrete : beToNat [11, 28, 208, 91, 196, 248, 92, 160, 212, 239, 247, 233, 248, 163, 179, 81, 237, 228, 178, 42, 158, 40, 19, 30, 236, 183, 204, 41, 16, 193, 32, 7]
      = 5026351089568383478759587974790073170387514313621121629927154803221934972935 := by
  decide

set_option maxRecDepth 16000 in
set_option maxHeartbeats 1000000 in
theorem sigNonceK_concrete :
    generateK SECP256k1.order 1 [11, 28, 208, 91, 196, 248, 92, 160, 212, 239, 247, 233, 248, 163, 179, 81, 237, 228, 178, 42, 158, 40, 19, 30, 236, 183, 204, 41, 16, 193, 32, 7] 0
      = some 1921264195898474050494996458748243324720707629088061669626461682935581937757 := by
  decide

set_option maxRecDepth 16000 in
set_option maxHeartbeats 1000000 in
theorem sigLadder8_concrete :
    jacLadder (SECP256k1.Gx, SECP256k1.Gy)
      [false, false, false, false, true, false, true, true, false, true, false, false, true, true, false, true, true, true, true, true, true, false, false, false, false, true, false, false, false, false, false, true]
      (0,
      1,
      0)
      = (1366349373536496136961990949813581585209063921831393313261892574376000640611,
      93895220745130781632066079814313691656557249572943550571721225538610849214259,
      32252313379243248428592358796633895571459935846313460672051946142183133474329) := by
  decide

set_option maxRecDepth 16000 in
set_option maxHeartbeats 1000000 in
theorem sigLadder7_concrete :
    jacLadder (SECP256k1.Gx, SECP256k1.Gy)
      [false, true, true, false, false, false, true, false, false, true, true, true, false, false, false, false, false, false, true, false, true, false, true, true, false, false, true, true, true, false, true, true]
      (1366349373536496136961990949813581585209063921831393313261892574376000640611,
      93895220745130781632066079814313691656557249572943550571721225538610849214259,
      32252313379243248428592358796633895571459935846313460672051946142183133474329)
      = (53517172273859660786739446168032309534898960823369390477583765453002557795105,
      63855156858607994177679222049059840532700430862887497973701738684977123042278,
      28107809525862398127330726320775178905329307707499031808252202060142707318125) := by
  decide

set_option maxRecDepth 16000 in
set_option maxHeartbeats 1000000 in
theorem sigLadder6_concrete :
    jacLadder (SECP256k1.Gx, SECP256k1.Gy)
      [false, true, true, true, false, false, true, false, true, false, true, false, true, false, true, true, false, true, false, true, true, true, true, true, false, true, false, true, true, true, false, false]
      (53517172273859660786739446168032309534898960823369390477583765453002557795105,
      63855156858607994177679222049059840532700430862887497973701738684977123042278,
      28107809525862398127330726320775178905329307707499031808252202060142707318125)
      = (5865861843892398425302844086439200788525360048905969698607146962379731727284,
      65184379523745575688969520016741928735592177746518708426250938228638218477067,
      36306552520558474128433851195322024723754996355696486712918878459182374194431) := by
  decide

set_option maxRecDepth 16000 in
set_option maxHeartbeats 1000000 in
theorem sigLadder5_concrete :
    jacLadder (SECP256k1.Gx, SECP256k1.Gy)
      [true, true, false, true, true, false, false, false, false, false, false, true, true, false, true, true, false, false, true, false, true, false, true, false, false, true, false, true, false, true, false, true]
      (5865861843892398425302844086439200788525360048905969698607146962379731727284,
      65184379523745575688969520016741928735592177746518708426250938228638218477067,
      36306552520558474128433851195322024723754996355696486712918878459182374194431)
      = (62294251593873121306099657510038433203999780725735771048118380350114610084374,
      5730855674793843991140278085749746439763794490910507927076249754468013502552,
      84605599578018385041146872432225510940271558498477044455622322158473950809902) := by
  decide

set_option maxRecDepth 16000 in
set_option maxHeartbeats 1000000 in
theorem sigLadder4_concrete :
    jacLadder (SECP256k1.Gx, SECP256k1.Gy)
      [true, false, false, false, false, false, true, false, false, false, false, true, false, false, false, false, true, false, true, true, false, false, false, true, true, true, false, false, false, true, false, false]
      (62294251593873121306099657510038433203999780725735771048118380350114610084374,
      5730855674793843991140278085749746439763794490910507927076249754468013502552,
      84605599578018385041146872432225510940271558498477044455622322158473950809902)
      = (50918531358291818434858267808618055776134138677569055802977349479573651072777,
      77350612467523767470237851354349544563054094456991158200357608758135290431168,
      84727624348543868745845399082172747737518179456626215494085312597343896181568) := by
  decide

set_option maxRecDepth 16000 in
set_option maxHeartbeats 1000000 in
theorem sigLadder3_concrete :
    jacLadder (SECP256k1.Gx, SECP256k1.Gy)
      [true, false, true, true, true, true, false, false, false, true, false, false, true, false, false, false, true, true, false, false, false, false, false, true, false, false, true, false, false, true, true, false]
      (50918531358291818434858267808618055776134138677569055802977349479573651072777,
      77350612467523767470237851354349544563054094456991158200357608758135290431168,
      84727624348543868745845399082172747737518179456626215494085312597343896181568)
      = (28625564511698849317854587557769854276900233473529062880912587006144937523848,
      6006771945203317450704070046314833138136727110467578819813461392046005494247,
      89063245782615403452569453676874379760539615526084884677696117547286069468177) := by
  decide

set_option maxRecDepth 16000 in
set_option maxHeartbeats 1000000 in
theorem sigLadder2_concrete :
    jacLadder (SECP256k1.Gx, SECP256k1.Gy)
      [true, true, true, true, false, true, true, true, true, false, false, false, true, false, false, false, false, true, true, true, false, true, false, true, true, false, false, true, true, true, true, true]
      (28625564511698849317854587557769854276900233473529062880912587006144937523848,
      6006771945203317450704070046314833138136727110467578819813461392046005494247,
      89063245782615403452569453676874379760539615526084884677696117547286069468177)
      = (55039613409818960936449841515471408238665307508085267713493807146920785273778,
      36033655863618116096955917212291051237183069987650485134205377749478845870066,
      59776843361640703746198966529074421943981848153443095984248962609287815684531) := by
  decide

set_option maxRecDepth 16000 in
set_option maxHeartbeats 1000000 in
theorem sigLadder1_concrete :
    jacLadder (SECP256k1.Gx, SECP256k1.Gy)
      [false, true, true, true, true, false, false, true, true, false, false, false, true, false, true, true, false, true, true, false, true, false, false, false, false, true, true, false, true, false, true, false, false]
      (55039613409818960936449841515471408238665307508085267713493807146920785273778,
      36033655863618116096955917212291051237183069987650485134205377749478845870066,
      59776843361640703746198966529074421943981848153443095984248962609287815684531)
      = (112867263937769147849653933763816618179619528736879824232101017071134515438147,
      105040808746845377974477771549688673225103587201540550306052230413261678323693,
      12522961964539487600257812245910941751467677074512317898776956242069966788206) := by
  decide

set_option maxRecDepth 16000 in
theorem sigBits_concrete :
    natToBits 300 117713353433214669474065981467436151177558271908162966052231624824453743432094
      = [false, true, true, true, true, false, false, true, true, false, false, false, true, false, true, true, false, true, true, false, true, false, false, false, false, true, true, false, true, false, true, false, false]
        ++ [true, true, true, true, false, true, true, true, true, false, false, false, true, false, false, false, false, true, true, true, false, true, false, true, true, false, false, true, true, true, true, true]
        ++ [true, false, true, true, true, true, false, false, false, true, false, false, true, false, false, false, true, true, false, false, false, false, false, true, false, false, true, false, false, true, true, false]
        ++ [true, false, false, false, false, false, true, false, false, false, false, true, false, false, false, false, true, false, true, true, false, false, false, true, true, true, false, false, false, true, false, false]
        ++ [true, true, false, true, true, false, false, false, false, false, false, true, true, false, true, true, false, false, true, false, true, false, true, false, false, true, false, true, false, true, false, true]
        ++ [false, true, true, true, false, false, true, false, true, false, true, false, true, false, true, true, false, true, false, true, true, true, true, true, false, true, false, true, true, true, false, false]
        ++ [false, true, true, false, false, false, true, false, false, true, true, true, false, false, false, false, false, false, true, false, true, false, true, true, false, false, true, true, true, false, true, true]
        ++ [false, false, false, false, true, false, true, true, false, true, false, false, true, true, false, true, true, true, true, true, true, false, false, false, false, true, false, false, false, false, false, true] := by
  decide

set_option maxRecDepth 16000 in
set_option maxHeartbeats 1000000 in
theorem sigNoncePoint_concrete :
    noncePoint 1921264195898474050494996458748243324720707629088061669626461682935581937757
      = some (102764132391110984684922101902640630236262094452794034167509193425080371045159,
          54710366904375891748161139404847908011098090392208375837255694946310484633565) := by
  show jacToAffine (jacLadder (SECP256k1.Gx, SECP256k1.Gy)
      (natToBits 300 117713353433214669474065981467436151177558271908162966052231624824453743432094) (0, 1, 0)) = _
  rw [sigBits_concrete]
  simp only [jacLadder_append]
  rw [sigLadder8_concrete]
  rw [sigLadder7_concrete]
  rw [sigLadder6_concrete]
  rw [sigLadder5_concrete]
  rw [sigLadder4_concrete]
  rw [sigLadder3_concrete]
  rw [sigLadder2_concrete]
  rw [sigLadder1_concrete]
  decide

set_option maxRecDepth 16000 in
set_option maxHeartbeats 1000000 in
theorem sigAttempt_concrete :
    signAttempt 1 5026351089568383478759587974790073170387514313621121629927154803221934972935
        1921264195898474050494996458748243324720707629088061669626461682935581937757
      = some (102764132391110984684922101902640630236262094452794034167509193425080371045159,
          10479195542640578734272162006248422214524642040911479099524189527489781062394) := by
  show (noncePoint 1921264195898474050494996458748243324720707629088061669626461682935581937757).elim none
      (fun xy => signRS 1 5026351089568383478759587974790073170387514313621121629927154803221934972935 1921264195898474050494996458748243324720707629088061669626461682935581937757 xy.1) = _
  rw [sigNoncePoint_concrete]
  simp only [Option.elim]
  decide

set_option maxRecDepth 16000 in
set_option maxHeartbeats 1000000 in
theorem sigLoop_concrete :
    signDetLoop 1 5026351089568383478759587974790073170387514313621121629927154803221934972935
        [11, 28, 208, 91, 196, 248, 92, 160, 212, 239, 247, 233, 248, 163, 179, 81, 237, 228, 178, 42, 158, 40, 19, 30, 236, 183, 204, 41, 16, 193, 32, 7] 64 0
      = some (102764132391110984684922101902640630236262094452794034167509193425080371045159,
          10479195542640578734272162006248422214524642040911479099524189527489781062394) := by
  show (generateK SECP256k1.order 1 [11, 28, 208, 91, 196, 248, 92, 160, 212, 239, 247, 233, 248, 163, 179, 81, 237, 228, 178, 42, 158, 40, 19, 30, 236, 183, 204, 41, 16, 193, 32, 7] 0).elim none
      (fun k => (signAttempt 1 5026351089568383478759587974790073170387514313621121629927154803221934972935 k).elim
        (signDetLoop 1 5026351089568383478759587974790073170387514313621121629927154803221934972935 [11, 28, 208, 91, 196, 248, 92, 160, 212, 239, 247, 233, 248, 163, 179, 81, 237, 228, 178, 42, 158, 40, 19, 30, 236, 183, 204, 41, 16, 193, 32, 7] 63 1) some) = _
  rw [sigNonceK_concrete]
  simp only [Option.elim]
  rw [sigAttempt_concrete]

set_option maxRecDepth 16000 in
set_option maxHeartbeats 1000000 in
theorem signDet_concrete :
    signDeterministic 1 (canonicalMessage [123, 125] 1700000000000000000 "gonka1provider")
      = some (102764132391110984684922101902640630236262094452794034167509193425080371045159,
          10479195542640578734272162006248422214524642040911479099524189527489781062394) := by
  show signDetLoop 1
      (beToNat (sha256 (canonicalMessage [123, 125] 1700000000000000000 "gonka1provider")))
      (sha256 (canonicalMessage [123, 125] 1700000000000000000 "gonka1provider")) 64 0 = _
  rw [sigDigest_concrete, sigZ_concrete]
  exact sigLoop_concrete

theorem sign_payload_concrete :
    sign_payload "0000000000000000000000000000000000000000000000000000000000000001"
        [123, 125] 1700000000000000000 "gonka1provider"
      = Except.ok
          "4zJwD1oF87WwfjUSPfkiz1JNLS2xcMsWxEjiefRe4ycXKwO1nDUt30xR1/fT0vowuUYEw5An7bF2OYJK/yJa+g==" := by
  unfold sign_payload
  rw [parsedKey_concrete, bind_ok_red]
  show (signDeterministic 1 (canonicalMessage [123, 125] 1700000000000000000 "gonka1provider")).elim
      (Except.error SignError.nonceFailure)
      (fun rs =>
        let sig := natToBeBytes 32 rs.1 ++ natToBeBytes 32 rs.2
        let rBytes := List.take 32 sig
        let sBytes := List.drop 32 sig
        let sInt := beToNat sBytes
        let sInt2 := if SECP256k1.order / 2 < sInt then SECP256k1.order - sInt else sInt
        let sBytes2 := natToBeBytes 32 sInt2
        Except.ok (b64encodeStr (rBytes ++ sBytes2))) = _
  rw [signDet_concrete]
  simp only [Option.elim]
  rfl

/-- C1 witness: the theorem applied at a concrete key, payload, timestamp
and address, with the concrete deterministic signature pair. -/
theorem claim_C1_witness :
    sign_payload "0000000000000000000000000000000000000000000000000000000000000001"
        [123, 125] 1700000000000000000 "gonka1provider" =
      Except.ok (b64encodeStr (natToBeBytes 32
          102764132391110984684922101902640630236262094452794034167509193425080371045159 ++
        natToBeBytes 32 (if SECP256k1.order / 2
            < 10479195542640578734272162006248422214524642040911479099524189527489781062394
          then SECP256k1.order
            - 10479195542640578734272162006248422214524642040911479099524189527489781062394
          else 10479195542640578734272162006248422214524642040911479099524189527489781062394))) ∧
    canonicalMessage [123, 125] 1700000000000000000 "gonka1provider"
      = [123, 125] ++ (intDecimalString 1700000000000000000).data.map Char.toNat
          ++ strBytes "gonka1provider" ∧
    (∀ c ∈ (intDecimalString (1700000000000000000 : Int)).data, '0' ≤ c ∧ c ≤ '9') ∧
    ((1700000000000000000 : Int) = 0 → intDecimalString 1700000000000000000 = "0") ∧
    ((1700000000000000000 : Int) ≠ 0 →
      (intDecimalString (1700000000000000000 : Int)).data.head? ≠ some '0') :=
  claim_C1 "0000000000000000000000000000000000000000000000000000000000000001" [123, 125]
    1700000000000000000 "gonka1provider" 1
    102764132391110984684922101902640630236262094452794034167509193425080371045159
    10479195542640578734272162006248422214524642040911479099524189527489781062394
    parsedKey_concrete (by decide) signDet_concrete

/-- C2 witness: the theorem applied to the concrete signature produced by
`sign_payload` on a fixed input. -/
theorem claim_C2_witness :
    ((b64decode
        "4zJwD1oF87WwfjUSPfkiz1JNLS2xcMsWxEjiefRe4ycXKwO1nDUt30xR1/fT0vowuUYEw5An7bF2OYJK/yJa+g==").getD
        []).length = 64 ∧
    beToNat (((b64decode
        "4zJwD1oF87WwfjUSPfkiz1JNLS2xcMsWxEjiefRe4ycXKwO1nDUt30xR1/fT0vowuUYEw5An7bF2OYJK/yJa+g==").getD
        []).drop 32) ≤ SECP256k1.order / 2 :=
  claim_C2 "0000000000000000000000000000000000000000000000000000000000000001" [123, 125]
    1700000000000000000 "gonka1provider" _ sign_payload_concrete

/-- C5 witness: two readings whose wall clock jumps backwards while the
monotonic clock advances. -/
theorem claim_C5_witness :
    (([⟨1700000000000000000, 5⟩, ⟨1600000000000000000, 7⟩] :
        List ClockReading).map (hybrid_timestamp_ns
      (init_client "k" "a" "http://e" "p" ⟨1700000000000000000, 5⟩))).Pairwise (· ≤ ·) ∧
    ∀ now now2 : ClockReading, now.perfNs = now2.perfNs →
      hybrid_timestamp_ns (init_client "k" "a" "http://e" "p" ⟨1700000000000000000, 5⟩) now
        = hybrid_timestamp_ns (init_client "k" "a" "http://e" "p" ⟨1700000000000000000, 5⟩)
            now2 :=
  claim_C5 "k" "a" "http://e" "p" ⟨1700000000000000000, 5⟩
    [⟨1700000000000000000, 5⟩, ⟨1600000000000000000, 7⟩] (by decide)

/-- C6 counterexample: the original claim fails on the code at the
malformed (non-hex) private key "zz": construction succeeds — `__init__`
stores the key unvalidated and there is no ConfigurationError — and the
first signing operation is exactly where the malformed key first fails. -/
theorem claim_C6_counterexample :
    init_client "zz" "addr" "http://host" "prov" ⟨0, 0⟩ =
      { privateKey := "zz", address := "addr", endpoint := "http://host",
        providerAddress := "prov", wallBase := 0, perfBase := 0 } ∧
    sign_payload "zz" [] 0 "prov" = Except.error SignError.invalidHexKey :=
  ⟨rfl, rfl⟩

/-- C6 witness: the amended claim at the concrete malformed key "zz". -/
theorem claim_C6_witness :
    init_client "zz" "a" "e" "p" ⟨3, 4⟩ =
      { privateKey := "zz", address := "a", endpoint := rstripSlash "e",
        providerAddress := "p", wallBase := 3, perfBase := 4 } ∧
    sign_payload "zz" [9] 5 "p" = Except.error SignError.invalidHexKey :=
  claim_C6 "zz" "a" "e" "p" ⟨3, 4⟩ [9] 5 "p" SignError.invalidHexKey rfl

/-- C9 witness: a 500 response with a readable two-byte error body and
pending chunks that must not be yielded. -/
theorem claim_C9_witness :
    request_stream_events ⟨500, some [104, 105], [[1, 2], [3]]⟩
      = [StreamEvent.readBody [104, 105],
          StreamEvent.raiseStatusError (UpstreamStreamResponse.statusCode
            ⟨500, some [104, 105], [[1, 2], [3]]⟩)] ∧
    (∀ c, StreamEvent.yieldChunk c ∉
      request_stream_events ⟨500, some [104, 105], [[1, 2], [3]]⟩) ∧
    (∀ resp2 c, StreamEvent.yieldChunk c ∈ request_stream_events resp2 →
      resp2.statusCode < 400) :=
  claim_C9 ⟨500, some [104, 105], [[1, 2], [3]]⟩ [104, 105] (by decide) rfl

/-- C10 witness: a settings record missing the endpoint and provider
address, together with a malformed request body. -/
theorem claim_C10_witness :
    chat_completions ⟨"abc", "gonka1me", "", "", "sk-key"⟩ ⟨0, 0⟩
        (Except.error "Expecting value: line 1 column 1 (char 0)")
        (Except.error (UpstreamFailure.transportFailure "unused"))
      = HandlerResult.httpError 500
          (configIncompleteDetail (missingConfigVars ⟨"abc", "gonka1me", "", "", "sk-key"⟩)) ∧
    (∀ rawBody2 upstream2,
      chat_completions ⟨"abc", "gonka1me", "", "", "sk-key"⟩ ⟨0, 0⟩ rawBody2 upstream2
        = chat_completions ⟨"abc", "gonka1me", "", "", "sk-key"⟩ ⟨0, 0⟩
            (Except.error "Expecting value: line 1 column 1 (char 0)")
            (Except.error (UpstreamFailure.transportFailure "unused"))) ∧
    missingConfigVars ⟨"abc", "gonka1me", "", "", "sk-key"⟩ ≠ [] :=
  claim_C10 ⟨"abc", "gonka1me", "", "", "sk-key"⟩ ⟨0, 0⟩
    (Except.error "Expecting value: line 1 column 1 (char 0)")
    (Except.error (UpstreamFailure.transportFailure "unused"))
    (Or.inr (Or.inr (Or.inl rfl)))

end GonkaProxy
